/-
Verification of the xlist-scraper repository (TypeScript).

This file shallowly embeds the parts of the program that the verified
claims are about:

  * `src/lib/time.ts`      (`formatTwitterTimestamp`, `parseTwitterDate`,
                            `parseRelativeTime`)
  * `src/lib/url.ts`       (`extractTweetId`)
  * `src/scraper/domParsers.ts` (`parseTweetElement`)
  * `src/scraper/scrapeList.ts` (`scrapeList`: the incremental extraction
                            loop with dedup, cap, stall counter, blocker
                            classification and the final sort)
  * `src/api/routes.ts`    (`registerRoutes`: the multi-target fan-out,
                            the error classification and the merge policy)
  * `src/api/schemas.ts`   (`normalizeRequest`)

Conventions of the embedding:

  * JavaScript numbers occurring in the program are integers in every
    code path modelled here; they are embedded as `Nat`/`Int`.
  * JavaScript strings are `String`; `s.includes(t)` is `jsIncludes`,
    `s.trim()` is `jsTrim`.
  * A value that may be `null`/`undefined` is an `Option`.
  * A JS `Date` stores an absolute instant.  We represent an instant by
    its UTC calendar fields (`DateUTC`); `getUTCDay` is recomputed from
    the fields exactly as the proleptic-Gregorian calendar prescribes
    (via days-from-civil, matching JS's `(floor(t/86400000)+4) mod 7`).
    `Date.UTC(...)` on in-range arguments builds the date with exactly
    those fields; argument normalization (e.g. day overflow) happens in
    no code path exercised by the theorems below and is not modelled,
    except for the month-index `-1` case that `parseTwitterDate` itself
    can produce.
  * The rendering/navigation substrate (Playwright) is external: a
    page is modelled by what the four capabilities used by the loop
    return on each round (`PageRound`, `TargetPage`), and a rendered
    feed item by the selector/attribute reads `parseTweetElement`
    performs on it (`ArticleModel`).
  * `async`/`await` sequencing is direct sequencing: all modelled
    functions are deterministic given the modelled page state.
-/

import Mathlib

/-! ## JavaScript string helpers -/

/-- JS `Number.isInteger`-style digit test used through `Char.isDigit`:
`\d` of the source regexes. -/
def isDigitChar (c : Char) : Bool := c.isDigit

/-- `\w` of the source regexes: `[A-Za-z0-9_]`. -/
def isWordChar (c : Char) : Bool :=
  c.isAlpha || c.isDigit || c = '_'

/-- Numeric value of a digit character. -/
def digitVal (c : Char) : Nat := c.toNat - 48

/-- Whitespace as trimmed by JS `String.prototype.trim` (the characters
relevant to the program: space, tab, newline, carriage return). -/
def isJsSpace (c : Char) : Bool :=
  c = ' ' || c = '\t' || c = '\n' || c = '\r'

/-- Model of `String.prototype.trim`. -/
def jsTrim (s : String) : String :=
  ⟨(s.data.dropWhile isJsSpace).reverse.dropWhile isJsSpace |>.reverse⟩

/-- Does `pat` occur as a contiguous run at the head of `text`? -/
def prefixMatch : List Char → List Char → Bool
  | [], _ => true
  | _ :: _, [] => false
  | p :: ps, t :: ts => p = t && prefixMatch ps ts

/-- Model of JS `text.includes(pat)` on the underlying characters. -/
def hasSubstring (text pat : List Char) : Bool :=
  match text with
  | [] => prefixMatch pat []
  | _ :: rest => prefixMatch pat text || hasSubstring rest pat

/-- Model of JS `s.includes(t)`. -/
def jsIncludes (s t : String) : Bool := hasSubstring s.data t.data

/-! ## Dates (`src/lib/time.ts`)

A JS `Date` is an absolute instant; we carry its UTC calendar fields.
`month` is 0-based as in JS (`getUTCMonth`). -/

structure DateUTC where
  year : Nat
  month : Nat
  day : Nat
  hour : Nat
  minute : Nat
  second : Nat
deriving DecidableEq, Repr

/-- Days since the Unix epoch of a civil date (`m` is 1-based here), the
standard days-from-civil computation on the proleptic Gregorian
calendar.  This is the calendar arithmetic JS `Date` performs
internally; `/` and `%` on `Int` are Euclidean, which on the
non-negative intermediate values below coincides with floor. -/
def daysFromCivil (y m d : Int) : Int :=
  let yAdj : Int := if m ≤ 2 then y - 1 else y
  let era : Int := (if 0 ≤ yAdj then yAdj else yAdj - 399) / 400
  let yoe : Int := yAdj - era * 400
  let mp : Int := (m + 9) % 12
  let doy : Int := (153 * mp + 2) / 5 + d - 1
  let doe : Int := yoe * 365 + yoe / 4 - yoe / 100 + doy
  era * 146097 + doe - 719468

/-- Model of `Date.prototype.getTime` (milliseconds since the epoch) on
a `DateUTC`. -/
def epochMs (t : DateUTC) : Int :=
  (daysFromCivil t.year (t.month + 1) t.day) * 86400000
    + (t.hour * 3600 + t.minute * 60 + t.second) * 1000

/-- Model of `Date.prototype.getUTCDay`: `0` = Sunday.  JS computes it
as `(floor(t / 86400000) + 4) mod 7`. -/
def getUTCDay (t : DateUTC) : Nat :=
  ((daysFromCivil t.year (t.month + 1) t.day + 4) % 7).toNat

/-- The `days` array of `formatTwitterTimestamp`. -/
def dayNames : List String :=
  ["Sun", "Mon", "Tue", "Wed", "Thu", "Fri", "Sat"]

/-- The `months` array of `formatTwitterTimestamp` and
`parseTwitterDate`. -/
def monthNames : List String :=
  ["Jan", "Feb", "Mar", "Apr", "May", "Jun",
   "Jul", "Aug", "Sep", "Oct", "Nov", "Dec"]

/-- Model of `String(n).padStart(2, "0")` for the two-digit fields of
the timestamp format; all call sites pass values below 100. -/
def pad2 (n : Nat) : String :=
  ⟨[Nat.digitChar (n / 10), Nat.digitChar (n % 10)]⟩

/-- Model of `` `${year}` `` for the year field; all theorems below
instantiate it with four-digit years, on which it agrees with JS
number-to-string conversion. -/
def yearString (y : Nat) : String :=
  ⟨[Nat.digitChar (y / 1000 % 10), Nat.digitChar (y / 100 % 10),
    Nat.digitChar (y / 10 % 10), Nat.digitChar (y % 10)]⟩

/-- `formatTwitterTimestamp` of `src/lib/time.ts`: renders
`"EEE MMM dd HH:mm:ss +0000 yyyy"` from the date's UTC fields. -/
def formatTwitterTimestamp (date : DateUTC) : String :=
  (dayNames.getD (getUTCDay date) "") ++ " "
    ++ (monthNames.getD date.month "") ++ " "
    ++ pad2 date.day ++ " "
    ++ pad2 date.hour ++ ":" ++ pad2 date.minute ++ ":" ++ pad2 date.second
    ++ " +0000 " ++ yearString date.year

/-- The anchored fixed-width regex of `parseTwitterDate`:
`^(\w{3}) (\w{3}) (\d{2}) (\d{2}):(\d{2}):(\d{2}) \+0000 (\d{4})$`.
Returns the captured groups the source destructures (the full match and
the weekday group are discarded there): month name, day, hours, minutes,
seconds, year, with `parseInt` applied to the numeric groups. -/
def parseCanonicalChars : List Char → Option (String × Nat × Nat × Nat × Nat × Nat)
  | [w1, w2, w3, sp1, a1, a2, a3, sp2, d1, d2, sp3,
     h1, h2, co1, n1, n2, co2, s1, s2, sp4, pl, z1, z2, z3, z4, sp5,
     y1, y2, y3, y4] =>
    if sp1 = ' ' && sp2 = ' ' && sp3 = ' ' && co1 = ':' && co2 = ':'
        && sp4 = ' ' && pl = '+' && z1 = '0' && z2 = '0' && z3 = '0' && z4 = '0'
        && sp5 = ' '
        && isWordChar w1 && isWordChar w2 && isWordChar w3
        && isWordChar a1 && isWordChar a2 && isWordChar a3
        && isDigitChar d1 && isDigitChar d2 && isDigitChar h1 && isDigitChar h2
        && isDigitChar n1 && isDigitChar n2 && isDigitChar s1 && isDigitChar s2
        && isDigitChar y1 && isDigitChar y2 && isDigitChar y3 && isDigitChar y4 then
      some (⟨[a1, a2, a3]⟩,
        digitVal d1 * 10 + digitVal d2,
        digitVal h1 * 10 + digitVal h2,
        digitVal n1 * 10 + digitVal n2,
        digitVal s1 * 10 + digitVal s2,
        digitVal y1 * 1000 + digitVal y2 * 100 + digitVal y3 * 10 + digitVal y4)
    else none
  | _ => none

/-- `parseTwitterDate` of `src/lib/time.ts` on the inputs the verified
claims quantify over.  The source first tries `new Date(dateStr)`; on a
string in Twitter's native format the lenient V8 parser and the
explicit regex branch agree on the resulting UTC instant, so both
branches are folded into the regex model.  A month name outside the
`months` array gives `indexOf = -1`, which `Date.UTC` normalizes to
December of the preceding year.  Any other input falls through to the
source's `new Date()` wall-clock fallback, passed here as `now`. -/
def parseTwitterDate (now : DateUTC) (s : String) : DateUTC :=
  match parseCanonicalChars s.data with
  | some (mon, day, hour, minute, second, year) =>
    let idx := monthNames.indexOf mon
    if idx < monthNames.length then ⟨year, idx, day, hour, minute, second⟩
    else ⟨year - 1, 11, day, hour, minute, second⟩
  | none => now

/-- Civil date (1-based month) from days since the epoch: the inverse
calendar computation JS `Date` performs for the `getUTC*` accessors.
Euclidean `/` on `Int` agrees with floor for the positive divisors
used here. -/
def civilFromDays (days : Int) : Int × Int × Int :=
  let z := days + 719468
  let era := z / 146097
  let doe := z - era * 146097
  let yoe := (doe - doe / 1460 + doe / 36524 - doe / 146096) / 365
  let doy := doe - (365 * yoe + yoe / 4 - yoe / 100)
  let mp := (5 * doy + 2) / 153
  let d := doy - (153 * mp + 2) / 5 + 1
  let m := if mp < 10 then mp + 3 else mp - 9
  let y := yoe + era * 400 + (if m ≤ 2 then 1 else 0)
  (y, m, d)

/-- A JS `Date` built from milliseconds since the epoch, decomposed into
its UTC fields (instants before year 0 occur in no modelled path). -/
def ofEpochMs (ms : Int) : DateUTC :=
  let days := ms / 86400000
  let secs := ms % 86400000 / 1000
  match civilFromDays days with
  | (y, m, d) =>
    ⟨y.toNat, (m - 1).toNat, d.toNat,
      (secs / 3600).toNat, (secs / 60 % 60).toNat, (secs % 60).toNat⟩

/-- Model of `parseInt` on a nonempty digit string. -/
def digitsToNat (ds : List Char) : Nat :=
  ds.foldl (fun a c => a * 10 + digitVal c) 0

/-- The anchored regex of `parseRelativeTime`: `^(\d+)([smhd])$`. -/
def relTimeMatch (cs : List Char) : Option (Nat × Char) :=
  let ds := cs.takeWhile isDigitChar
  match ds, cs.drop ds.length with
  | [], _ => none
  | _ :: _, [u] =>
    if u = 's' || u = 'm' || u = 'h' || u = 'd' then some (digitsToNat ds, u)
    else none
  | _ :: _, _ => none

/-- `parseRelativeTime` of `src/lib/time.ts`: subtracts the relative
span from the wall clock `nowMs` (the source's `Date.now()`), or
returns the wall clock when the string does not match. -/
def parseRelativeTime (nowMs : Int) (s : String) : DateUTC :=
  match relTimeMatch s.data with
  | none => ofEpochMs nowMs
  | some (n, u) =>
    let milliseconds : Int :=
      if u = 's' then (n : Int) * 1000
      else if u = 'm' then (n : Int) * 60 * 1000
      else if u = 'h' then (n : Int) * 60 * 60 * 1000
      else if u = 'd' then (n : Int) * 24 * 60 * 60 * 1000
      else 0
    ofEpochMs (nowMs - milliseconds)

/-- Model of `new Date(s).getTime()` as used by the two sort
comparators, on the canonical timestamp strings that every `createdAt`
field produced by the parser carries. -/
def dateMs (s : String) : Int :=
  epochMs (parseTwitterDate ⟨1970, 0, 1, 0, 0, 0⟩ s)

/-! ## Records (`src/types.ts`) -/

/-- The `Tweet` type of `src/types.ts`. -/
structure Tweet where
  id : String
  text : String
  retweetCount : Nat
  replyCount : Nat
  likeCount : Nat
  quoteCount : Nat
  createdAt : String
  bookmarkCount : Nat
  isRetweet : Bool
  isQuote : Bool
deriving DecidableEq, Repr

/-- The comparator `(a, b) => dateB - dateA` of `scrapeList`'s final
sort, as the total preorder it induces. -/
def tweetOrder (a b : Tweet) : Bool :=
  decide (dateMs b.createdAt ≤ dateMs a.createdAt)

/-- `tweets.sort(...)` of `scrapeList` (lines 169-174): JS
`Array.prototype.sort` is specified stable, so with the consistent
comparator above it produces exactly the stable descending-by-date
order. -/
def sortTweets (ts : List Tweet) : List Tweet :=
  ts.mergeSort tweetOrder

/-! ## The extraction loop (`src/scraper/scrapeList.ts`)

The rendering layer is abstracted by what the loop observes per round:
the parse result of each currently rendered article (in DOM order, as
`parseTweetElement` would return it — the parser itself is modelled
separately below) and whether an end-of-feed marker is present. -/

/-- One snapshot of the page as one loop round observes it. -/
structure PageRound where
  articles : List (Option Tweet)
  endOfFeed : Bool

/-- The `for (const article of articles)` body of `scrapeList` (lines
114-127): walks the rendered articles, breaking once the accumulated
count reaches `maxTweets`, skipping unparseable articles and ids
already in `seenIds`, and appending the rest while counting them in
`newTweetsFound`. -/
def harvestRound (maxTweets : Nat) :
    List (Option Tweet) → List Tweet → List String → Nat →
    List Tweet × List String × Nat
  | [], tweets, seen, newFound => (tweets, seen, newFound)
  | a :: rest, tweets, seen, newFound =>
    if maxTweets ≤ tweets.length then (tweets, seen, newFound)
    else
      match a with
      | some tw =>
        if seen.contains tw.id then harvestRound maxTweets rest tweets seen newFound
        else harvestRound maxTweets rest (tweets ++ [tw]) (tw.id :: seen) (newFound + 1)
      | none => harvestRound maxTweets rest tweets seen newFound

/-- Why the `while` loop of `scrapeList` exited.  The source expresses
all three as `break`; the reason is recorded here as an observation and
does not influence any returned data.  All three are non-throwing
(successful) completions. -/
inductive ExitReason where
  | capReached
  | endOfFeed
  | stalled
deriving DecidableEq, Repr

/-- The `while (tweets.length < opts.maxTweets)` loop of `scrapeList`
(lines 108-156): harvest the current snapshot, stop at the cap, stop at
an end-of-feed marker, count consecutive rounds with zero new records
in `consecutiveNoNewTweets` and stop after `maxConsecutiveScrolls = 5`
of them, resetting the counter whenever a round harvests a new record;
otherwise scroll and continue with the next snapshot. -/
def scrapeLoop (env : Nat → PageRound) (maxTweets : Nat) :
    Nat → List Tweet → List String → Nat → List Tweet × ExitReason
  | round, tweets, seen, stall =>
    if tweets.length < maxTweets then
      match hh : harvestRound maxTweets (env round).articles tweets seen 0 with
      | (tweets', seen', newFound) =>
        if maxTweets ≤ tweets'.length then (tweets', .capReached)
        else if (env round).endOfFeed then (tweets', .endOfFeed)
        else if newFound = 0 then
          if 5 ≤ stall + 1 then (tweets', .stalled)
          else scrapeLoop env maxTweets (round + 1) tweets' seen' (stall + 1)
        else scrapeLoop env maxTweets (round + 1) tweets' seen' 0
    else (tweets, .capReached)
  termination_by round tweets _ stall => (maxTweets - tweets.length) * 6 + (5 - stall)
  decreasing_by
  all_goals
    have hl : ∀ (arts : List (Option Tweet)) (t : List Tweet) (s : List String) (n : Nat),
        (harvestRound maxTweets arts t s n).1.length + n =
          t.length + (harvestRound maxTweets arts t s n).2.2 := by
      intro arts
      induction arts with
      | nil => intro t s n; simp [harvestRound]
      | cons a rest ih =>
        intro t s n
        rw [harvestRound.eq_def]
        dsimp only
        by_cases hc : maxTweets ≤ t.length
        · rw [if_pos hc]
        · rw [if_neg hc]
          cases a with
          | none => exact ih t s n
          | some tw =>
            dsimp only
            cases hs : s.contains tw.id
            · rw [if_neg (by simp [hs])]
              have h2 := ih (t ++ [tw]) (tw.id :: s) (n + 1)
              simp only [List.length_append, List.length_cons, List.length_nil] at h2 ⊢
              omega
            · rw [if_pos rfl]
              exact ih t s n
    have hl2 := hl (env round).articles tweets seen 0
    rw [hh] at hl2
    simp only at hl2
    omega

/-! ## Single-target scrape (`scrapeList`, `src/scraper/scrapeList.ts`)

The browser session is modelled by what its capabilities return for one
target: a navigation/launch failure message if `chromium.launch` /
`page.goto` throws, the blocker classification `checkForBlockers`
returns right after navigation, whether `waitForTweets` (with its one
scroll-and-rewait retry) found content, and the per-round snapshots.
Cookie load/save and teardown touch no data returned to the caller and
are not modelled. -/

/-- The `reason` values `checkForBlockers` can return. -/
inductive BlockerReason where
  | loginRequired
  | rateLimit
deriving DecidableEq, Repr

/-- One target as the session observes it. -/
structure TargetPage where
  navError : Option String
  blocker : Option BlockerReason
  tweetsLoaded : Bool
  rounds : Nat → PageRound

/-- Result of one `scrapeList` call: the returned tweet list, or the
message of the thrown error. -/
inductive ScrapeOutcome where
  | ok (tweets : List Tweet)
  | err (message : String)
deriving DecidableEq, Repr

/-- The message thrown on a `RATE_LIMIT` blocker (line 84). -/
def rateLimitMsg : String := "RATE_LIMIT: Twitter is rate limiting requests"

/-- The message thrown on a `LOGIN_REQUIRED` blocker (lines 86-88). -/
def loginRequiredMsg : String :=
  "LOGIN_REQUIRED: Twitter requires login. Provide cookies via persistCookiesPath"

/-- The message thrown when no tweets load (line 99). -/
def noTweetsMsg : String :=
  "No tweets found on the page. The list may be empty or private."

/-- `scrapeList` with `partialOk: false` (the value the HTTP route
always passes): navigation failures, blocker classifications and the
empty-page case are thrown as errors; otherwise the loop runs and its
accumulated list is sorted by date descending and returned. -/
def scrapeList (pg : TargetPage) (maxTweets : Nat) : ScrapeOutcome :=
  match pg.navError with
  | some m => .err m
  | none =>
    match pg.blocker with
    | some .rateLimit => .err rateLimitMsg
    | some .loginRequired => .err loginRequiredMsg
    | none =>
      if pg.tweetsLoaded then
        .ok (sortTweets (scrapeLoop pg.rounds maxTweets 0 [] [] 0).1)
      else .err noTweetsMsg

/-! ## The HTTP route (`registerRoutes`, `src/api/routes.ts`) -/

/-- The `ApiTweet` type of `src/types.ts`. -/
structure ApiTweet extends Tweet where
  sourceListURL : String
deriving DecidableEq, Repr

/-- `{ ...tweet, sourceListURL: url }` (lines 169-172). -/
def tagTweet (url : String) (t : Tweet) : ApiTweet :=
  { toTweet := t, sourceListURL := url }

/-- The route's sort comparator (lines 207-211), same shape as the
loop's. -/
def apiTweetOrder (a b : ApiTweet) : Bool :=
  decide (dateMs b.createdAt ≤ dateMs a.createdAt)

/-- What one target's `limit(async () => ...)` task (lines 154-189)
settles to: an outcome object `{ url, tweets, error }`, or a thrown
classified error `{ type, message }`. -/
inductive TargetResult where
  | outcome (url : String) (tweets : List ApiTweet) (error : Option String)
  | thrown (ty : String) (message : String)
deriving DecidableEq, Repr

/-- One target's task: run `scrapeList`; on success tag each tweet with
the source URL; on failure re-throw errors whose message contains
`RATE_LIMIT` — or `LOGIN_REQUIRED`, which the source also labels
`type: "RATE_LIMIT"` — and turn any other failure into an error
outcome. -/
def runTarget (maxTweets : Nat) (url : String) (pg : TargetPage) : TargetResult :=
  match scrapeList pg maxTweets with
  | .ok tweets => .outcome url (tweets.map (tagTweet url)) none
  | .err m =>
    if jsIncludes m "RATE_LIMIT" then .thrown "RATE_LIMIT" m
    else if jsIncludes m "LOGIN_REQUIRED" then .thrown "RATE_LIMIT" m
    else .outcome url [] (some m)

/-- The responses the `/scrape/list` handler can send (the
input-validation rejection happens before any of the code modelled
here and is omitted). -/
inductive Response where
  | success (count : Nat) (items : List ApiTweet)
  | partialResults (items : List ApiTweet) (details : List String)
  | internalError (message : String) (details : List String)
  | rateLimit (message : String)
deriving DecidableEq, Repr

/-- The HTTP status the handler pairs with each response shape. -/
def statusOf : Response → Nat
  | .success .. => 200
  | .partialResults .. => 422
  | .internalError .. => 500
  | .rateLimit .. => 429

/-- The `error` field of each response body. -/
def errorCodeOf : Response → Option String
  | .success .. => none
  | .partialResults .. => some "PARTIAL_RESULTS"
  | .internalError .. => some "INTERNAL"
  | .rateLimit .. => some "RATE_LIMIT"

/-- The `items` a caller receives (absent on total failure and on the
rate-limit response). -/
def itemsOf : Response → List ApiTweet
  | .success _ items => items
  | .partialResults items _ => items
  | _ => []

/-- The per-target error `details` a caller receives. -/
def detailsOf : Response → List String
  | .partialResults _ d => d
  | .internalError _ d => d
  | _ => []

/-- The first classified error thrown by any target's task, in task
order.  The tasks run sequentially under the default `CONCURRENCY = 1`
gate, so `Promise.all` rejects with the earliest task's throw. -/
def firstThrown (targets : List (String × TargetPage)) (maxTweets : Nat) :
    Option (String × String) :=
  (targets.map fun p => runTarget maxTweets p.1 p.2).findSome?
    (fun r => match r with | .thrown ty m => some (ty, m) | _ => none)

/-- The route's `errors` accumulator (lines 196-204): one
`` `${url}: ${error}` `` entry per failed target, in target order. -/
def routeErrors (targets : List (String × TargetPage)) (maxTweets : Nat) :
    List String :=
  (targets.map fun p => runTarget maxTweets p.1 p.2).filterMap fun r =>
    match r with
    | .outcome u _ (some e) => some (u ++ ": " ++ e)
    | _ => none

/-- The route's `allTweets` accumulator before the sort (lines
196-204): the successful targets' tagged records concatenated in
target order. -/
def routeTweets (targets : List (String × TargetPage)) (maxTweets : Nat) :
    List ApiTweet :=
  ((targets.map fun p => runTarget maxTweets p.1 p.2).filterMap fun r =>
    match r with
    | .outcome _ ts none => some ts
    | _ => none).flatten

/-- The `POST /scrape/list` handler of `registerRoutes` (lines
135-268), for a run over the given targets: run every target's task,
reject the whole run with the first thrown classified error, otherwise
collect errors and tweets in target order, sort all tweets by date
descending, and classify: some errors and zero tweets → 500 total
failure; some errors and some tweets → 422 partial results; no errors
→ 200 success. -/
def scrapeListRoute (targets : List (String × TargetPage)) (maxTweets : Nat) :
    Response :=
  match firstThrown targets maxTweets with
  | some (ty, m) =>
    -- a thrown plain object is not `instanceof Error`, so the generic
    -- 500 fallback (never reached: only RATE_LIMIT is thrown) reports
    -- "Unknown error"
    if ty = "RATE_LIMIT" then .rateLimit m else .internalError "Unknown error" []
  | none =>
    let errors := routeErrors targets maxTweets
    let allTweets := routeTweets targets maxTweets
    let sorted := allTweets.mergeSort apiTweetOrder
    if 0 < errors.length ∧ allTweets.length = 0 then
      .internalError "All scraping attempts failed" errors
    else if 0 < errors.length then
      .partialResults sorted errors
    else
      .success sorted.length sorted

/-! ## Request normalization (`src/api/schemas.ts`) -/

/-- The validated request body: each key of the zod schema, absent keys
as `none`.  `maxTweetsHyphen`/`timeoutMsHyphen` stand for the
`"max-tweets"`/`"timeout-ms"` keys. -/
structure ScrapeListRequestSchema where
  listURL : Option (List String)
  listUrl : Option (List String)
  maxTweetsHyphen : Option Nat
  maxTweets : Option Nat
  timeoutMsHyphen : Option Nat
  timeoutMs : Option Nat
deriving DecidableEq, Repr

/-- The `NormalizedScrapeRequest` type of `src/api/schemas.ts`. -/
structure NormalizedScrapeRequest where
  listURLs : List String
  maxTweets : Nat
  timeoutMs : Nat
deriving DecidableEq, Repr

/-- `normalizeRequest` of `src/api/schemas.ts`: `a ?? b` is exactly the
`Option.getD` chain; `raw.listURL || raw.listUrl || []` agrees with it
too because a JS array — even an empty one — is truthy and the schema
only admits arrays or absence for these keys. -/
def normalizeRequest (raw : ScrapeListRequestSchema) : NormalizedScrapeRequest :=
  { listURLs := raw.listURL.getD (raw.listUrl.getD [])
    maxTweets := raw.maxTweetsHyphen.getD (raw.maxTweets.getD 200)
    timeoutMs := raw.timeoutMsHyphen.getD (raw.timeoutMs.getD 60000) }

/-! ## Count parsing (`src/lib/counts.ts`) -/

/-- Modelled from the spec: `parseCount` of `src/lib/counts.ts` is not
among the provided sources (only its test file is).  Per §4.1/§8 of the
spec: integer part with an optional decimal part and an optional
thousand/million/billion suffix, lowercase accepted identically to
uppercase, comma-insensitive, surrounding whitespace ignored,
unparseable or empty input yields 0.  Agrees with every example in
`src/lib/counts.test.ts`. -/
def parseCount (s : String) : Nat :=
  let t := (jsTrim s).data.filter (fun c => c ≠ ',')
  let stripped :=
    match t.getLast? with
    | some c =>
      if c = 'K' || c = 'k' then (t.dropLast, 1000)
      else if c = 'M' || c = 'm' then (t.dropLast, 1000000)
      else if c = 'B' || c = 'b' then (t.dropLast, 1000000000)
      else (t, 1)
    | none => (t, 1)
  let numPart := stripped.1
  let mult := stripped.2
  let intPart := numPart.takeWhile isDigitChar
  if intPart.isEmpty then 0
  else
    match numPart.drop intPart.length with
    | [] => digitsToNat intPart * mult
    | '.' :: frac =>
      if !frac.isEmpty && frac.all isDigitChar then
        digitsToNat intPart * mult + digitsToNat frac * mult / 10 ^ frac.length
      else 0
    | _ => 0

/-! ## Tweet id extraction (`src/lib/url.ts`) -/

/-- First match of the regex `/\/status\/(\d+)/`: the earliest position
where `/status/` is immediately followed by at least one digit; the
capture is the maximal digit run there. -/
def statusMatch : List Char → Option String
  | [] => none
  | c :: rest =>
    if prefixMatch ("/status/".data) (c :: rest) then
      let ds := ((c :: rest).drop 8).takeWhile isDigitChar
      if ds.isEmpty then statusMatch rest else some ⟨ds⟩
    else statusMatch rest

/-- `extractTweetId` of `src/lib/url.ts`.  The source applies the regex
to the input itself for path-shaped inputs and to `new URL(...).pathname`
for absolute `http...` URLs; for every href the DOM hands this function
the first `/status/<digits>` occurrence lies in the path, so both
branches are the same scan.  Exceptions (`new URL` on a malformed
string) are caught and give `null`; the scan returning `none` covers
them. -/
def extractTweetId (urlOrPath : String) : Option String :=
  statusMatch urlOrPath.data

/-! ## The item parser (`parseTweetElement`, `src/scraper/domParsers.ts`)

One rendered article is modelled by what the parser's selector and
attribute reads return on it.  A selector of the form
`[attr*="..."]` only matches elements that carry the attribute, so a
matched element's `getAttribute` for that attribute is never `null`:
those two reads are collapsed into one `Option String`.  The
engagement-count reads keep both levels (button present?, count text
present?). -/

structure ArticleModel where
  /-- `article.$('a[href*="/status/"]')` then `.getAttribute("href")`. -/
  tweetLinkHref : Option String
  /-- first match of `'[data-testid="tweetText"], [lang], div[dir="auto"]'`,
  then `.textContent`. -/
  textContent : Option String
  /-- `article.$('[data-testid="socialContext"]')` then `.textContent`. -/
  socialContextText : Option String
  /-- `article.$('[role="link"][href*="/status/"]')` then
  `.getAttribute("href")`. -/
  quoteLinkHref : Option String
  /-- reply button, then its count element's text. -/
  replyCountText : Option (Option String)
  /-- retweet button, then its count element's text. -/
  retweetCountText : Option (Option String)
  /-- like button, then its count element's text. -/
  likeCountText : Option (Option String)
  /-- `article.$("time")` then `.getAttribute("datetime")`. -/
  timeDatetime : Option (Option String)
  /-- the time element's `.textContent`. -/
  timeText : Option String
deriving DecidableEq, Repr

/-- `extractCountFromButton`: no button → 0; otherwise the count
element's text, trimmed, empty or missing replaced by `"0"`, through
`parseCount`.  (The source's inner `catch` has nothing to catch in the
model.) -/
def extractCountFromButton (button : Option (Option String)) : Nat :=
  match button with
  | none => 0
  | some txt =>
    let text := match txt with
      | some t => if jsTrim t = "" then "0" else jsTrim t
      | none => "0"
    parseCount text

/-- `parseTweetElement` of `src/scraper/domParsers.ts`.  `nowMs` is the
wall clock `Date.now()` reads during the parse and `jsDateOfAttr`
stands for `new Date(datetime)` on the machine-readable attribute the
rendering layer supplies (an ISO string; its value never influences the
claims proved below).  Note the quote check: the source computes
`isQuote = (await quoteTweet?.getAttribute("href")) !== href`, and when
no `[role="link"]` status link exists the left side is `undefined`,
which differs from the string `href`, so `isQuote` comes out `true`. -/
def parseTweetElement (nowMs : Int) (jsDateOfAttr : String → DateUTC)
    (article : ArticleModel) : Option Tweet :=
  match article.tweetLinkHref with
  | none => none
  | some href =>
    match extractTweetId href with
    | none => none
    | some id =>
      let text := match article.textContent with
        | some t => jsTrim t
        | none => ""
      let isRetweet := match article.socialContextText with
        | some t => jsIncludes t "reposted"
        | none => false
      let isQuote : Bool := !(article.quoteLinkHref == some href)
      let createdAt := match article.timeDatetime.bind id' with
        | some datetime =>
          if datetime = "" then
            formatTwitterTimestamp (parseRelativeTime nowMs (timeTextOf article))
          else formatTwitterTimestamp (jsDateOfAttr datetime)
        | none =>
          formatTwitterTimestamp (parseRelativeTime nowMs (timeTextOf article))
      some
        { id := id
          text := text
          retweetCount := extractCountFromButton article.retweetCountText
          replyCount := extractCountFromButton article.replyCountText
          likeCount := extractCountFromButton article.likeCountText
          quoteCount := 0
          createdAt := createdAt
          bookmarkCount := 0
          isRetweet := isRetweet
          isQuote := isQuote }
where
  /-- `(await timeElement?.textContent())?.trim() || ""`. -/
  timeTextOf (a : ArticleModel) : String :=
    match a.timeText with
    | some t => jsTrim t
    | none => ""
  /-- `Option.bind` feed-through for the two-level datetime read. -/
  id' : Option String → Option String := fun x => x

/-! ## Concrete fixtures for the closed theorems below -/

/-- A record dated 2023 (canonical `createdAt`). -/
def tweetOld : Tweet :=
  { id := "1", text := "old", retweetCount := 0, replyCount := 0,
    likeCount := 0, quoteCount := 0,
    createdAt := "Sat Nov 04 19:06:32 +0000 2023",
    bookmarkCount := 0, isRetweet := false, isQuote := false }

/-- A record dated 2025 (canonical `createdAt`). -/
def tweetNew : Tweet :=
  { id := "2", text := "new", retweetCount := 0, replyCount := 0,
    likeCount := 0, quoteCount := 0,
    createdAt := "Tue Nov 04 19:06:32 +0000 2025",
    bookmarkCount := 0, isRetweet := false, isQuote := false }

/-- Every snapshot shows one unparseable article (e.g. an ad) and no
end-of-feed marker. -/
def stallRounds : Nat → PageRound :=
  fun _ => { articles := [none], endOfFeed := false }

/-- Snapshots that show one parseable record on the first round only. -/
def growRounds : Nat → PageRound :=
  fun i => { articles := if i = 0 then [some tweetNew] else [none], endOfFeed := false }

/-- A target that loads but never yields a parseable record: the scrape
succeeds with an empty list. -/
def pgEmptySuccess : TargetPage :=
  { navError := none, blocker := none, tweetsLoaded := true, rounds := stallRounds }

/-- A target whose navigation throws a generic error. -/
def pgNavErrorBoom : TargetPage :=
  { navError := some "boom", blocker := none, tweetsLoaded := true, rounds := stallRounds }

/-- A target classified `RATE_LIMIT` by the blocker check. -/
def pgRateLimited : TargetPage :=
  { navError := none, blocker := some .rateLimit, tweetsLoaded := true, rounds := stallRounds }

/-- A target classified `LOGIN_REQUIRED` by the blocker check. -/
def pgLoginWalled : TargetPage :=
  { navError := none, blocker := some .loginRequired, tweetsLoaded := true, rounds := stallRounds }

/-- A target yielding exactly one record and then the end-of-feed
marker. -/
def pgOneTweet : TargetPage :=
  { navError := none, blocker := none, tweetsLoaded := true,
    rounds := fun _ => { articles := [some tweetNew], endOfFeed := true } }

/-- A target whose single snapshot shows the 2023 record before the
2025 record (harvest order: old first), then the end-of-feed marker. -/
def pgTwoTweets : TargetPage :=
  { navError := none, blocker := none, tweetsLoaded := true,
    rounds := fun _ => { articles := [some tweetOld, some tweetNew], endOfFeed := true } }

/-- A rendered item with a detail-page link of its own and no second
(`[role="link"]`) detail-page link at all — an ordinary, quote-free
tweet. -/
def quoteLessArticle : ArticleModel :=
  { tweetLinkHref := some "/someuser/status/1234567890"
    textContent := some "plain tweet"
    socialContextText := none
    quoteLinkHref := none
    replyCountText := some (some "3")
    retweetCountText := none
    likeCountText := some (some "1.2K")
    timeDatetime := some (some "2025-11-04T19:06:32.000Z")
    timeText := none }

/-- The UTC fields `new Date("2025-11-04T19:06:32.000Z")` carries. -/
def isoFixtureDate : DateUTC :=
  { year := 2025, month := 10, day := 4, hour := 19, minute := 6, second := 32 }

/-! ## Helper results about the loop -/

/-- The tweet list a caller of `scrapeList` receives (none on a thrown
error). -/
def tweetsOf : ScrapeOutcome → List Tweet
  | .ok ts => ts
  | .err _ => []

/-- One harvest pass never pushes beyond the cap: each iteration breaks
before parsing once the accumulated count has reached `maxTweets`. -/
theorem harvestRound_le (maxTweets : Nat) (arts : List (Option Tweet))
    (tweets : List Tweet) (seen : List String) (newFound : Nat)
    (h : tweets.length ≤ maxTweets) :
    (harvestRound maxTweets arts tweets seen newFound).1.length ≤ maxTweets := by
  induction arts generalizing tweets seen newFound with
  | nil => simpa [harvestRound] using h
  | cons a rest ih =>
    rw [harvestRound.eq_def]
    dsimp only
    by_cases hc : maxTweets ≤ tweets.length
    · rw [if_pos hc]; exact h
    · rw [if_neg hc]
      cases a with
      | none => exact ih tweets seen newFound h
      | some tw =>
        dsimp only
        cases hs : seen.contains tw.id
        · rw [if_neg (by simp [hs])]
          exact ih (tweets ++ [tw]) (tw.id :: seen) (newFound + 1)
            (by simp only [List.length_append, List.length_cons, List.length_nil]; omega)
        · rw [if_pos rfl]
          exact ih tweets seen newFound h

/-- The loop preserves the cap bound on its accumulated list. -/
theorem scrapeLoop_length_le (env : Nat → PageRound) (maxTweets round : Nat)
    (tweets : List Tweet) (seen : List String) (stall : Nat)
    (h : tweets.length ≤ maxTweets) :
    (scrapeLoop env maxTweets round tweets seen stall).1.length ≤ maxTweets := by
  induction round, tweets, seen, stall using scrapeLoop.induct env maxTweets with
  | case1 round tweets seen stall hlt tweets' seen' newFound hh hcap =>
    have hb := harvestRound_le maxTweets (env round).articles tweets seen 0 (by omega)
    rw [hh] at hb
    rw [scrapeLoop, if_pos hlt, hh]
    dsimp only
    rw [if_pos hcap]
    exact hb
  | case2 round tweets seen stall hlt tweets' seen' newFound hh hcap hend =>
    rw [scrapeLoop, if_pos hlt, hh]
    dsimp only
    rw [if_neg hcap, if_pos hend]
    show tweets'.length ≤ maxTweets
    omega
  | case3 round tweets seen stall hlt tweets' seen' hcap hend hst hh =>
    rw [scrapeLoop, if_pos hlt, hh]
    dsimp only
    rw [if_neg hcap, if_neg hend, if_pos rfl, if_pos hst]
    show tweets'.length ≤ maxTweets
    omega
  | case4 round tweets seen stall hlt tweets' seen' hcap hend hst hh ih =>
    rw [scrapeLoop, if_pos hlt, hh]
    dsimp only
    rw [if_neg hcap, if_neg hend, if_pos rfl, if_neg hst]
    exact ih (by omega)
  | case5 round tweets seen stall hlt tweets' seen' newFound hh hcap hend hnf ih =>
    rw [scrapeLoop, if_pos hlt, hh]
    dsimp only
    rw [if_neg hcap, if_neg hend, if_neg hnf]
    exact ih (by omega)
  | case6 round tweets seen stall hge =>
    rw [scrapeLoop, if_neg hge]
    exact h

/-- One harvest pass adds exactly as many records as it counts in
`newTweetsFound`. -/
theorem harvestRound_length (maxTweets : Nat) (arts : List (Option Tweet))
    (tweets : List Tweet) (seen : List String) (newFound : Nat) :
    (harvestRound maxTweets arts tweets seen newFound).1.length + newFound =
      tweets.length + (harvestRound maxTweets arts tweets seen newFound).2.2 := by
  induction arts generalizing tweets seen newFound with
  | nil => simp [harvestRound]
  | cons a rest ih =>
    rw [harvestRound.eq_def]
    dsimp only
    by_cases hc : maxTweets ≤ tweets.length
    · rw [if_pos hc]
    · rw [if_neg hc]
      cases a with
      | none => exact ih tweets seen newFound
      | some tw =>
        dsimp only
        cases hs : seen.contains tw.id
        · rw [if_neg (by simp [hs])]
          have h2 := ih (tweets ++ [tw]) (tw.id :: seen) (newFound + 1)
          simp only [List.length_append, List.length_cons, List.length_nil] at h2 ⊢
          omega
        · rw [if_pos rfl]
          exact ih tweets seen newFound

example : scrapeLoop stallRounds 10 0 [] [] 0 = ([], .stalled) := by
  simp [scrapeLoop, stallRounds, harvestRound]

example : scrapeLoop pgOneTweet.rounds 10 0 [] [] 0 = ([tweetNew], .endOfFeed) := by
  simp [scrapeLoop, pgOneTweet, harvestRound]

/-- The loop's comparator is transitive (as a Boolean relation). -/
theorem tweetOrder_trans (a b c : Tweet) (h1 : tweetOrder a b = true)
    (h2 : tweetOrder b c = true) : tweetOrder a c = true := by
  simp only [tweetOrder, decide_eq_true_eq] at *
  omega

/-- The loop's comparator is total. -/
theorem tweetOrder_total (a b : Tweet) :
    (tweetOrder a b || tweetOrder b a) = true := by
  simp only [tweetOrder, Bool.or_eq_true, decide_eq_true_eq]
  omega

/-- The route's comparator is transitive. -/
theorem apiTweetOrder_trans (a b c : ApiTweet) (h1 : apiTweetOrder a b = true)
    (h2 : apiTweetOrder b c = true) : apiTweetOrder a c = true := by
  simp only [apiTweetOrder, decide_eq_true_eq] at *
  omega

/-- The route's comparator is total. -/
theorem apiTweetOrder_total (a b : ApiTweet) :
    (apiTweetOrder a b || apiTweetOrder b a) = true := by
  simp only [apiTweetOrder, Bool.or_eq_true, decide_eq_true_eq]
  omega

/-- A permutation of a two-element list of distinct elements is one of
its two arrangements. -/
theorem perm_pair_eq {α : Type} [DecidableEq α] {a b : α} (hab : a ≠ b)
    {l : List α} (h : l.Perm [a, b]) : l = [a, b] ∨ l = [b, a] := by
  have hlen := h.length_eq
  match l, hlen with
  | [x, y], _ =>
    have hx : x ∈ [a, b] := h.subset (by simp)
    have hy : y ∈ [a, b] := h.subset (by simp)
    have hca := h.count_eq a
    have hcb := h.count_eq b
    simp only [List.mem_cons, List.mem_singleton, List.not_mem_nil, or_false] at hx hy
    rcases hx with rfl | rfl
    · rcases hy with rfl | rfl
      · exfalso
        simp [List.count_cons, hab, Ne.symm hab] at hcb
      · exact Or.inl rfl
    · rcases hy with rfl | rfl
      · exact Or.inr rfl
      · exfalso
        simp [List.count_cons, hab, Ne.symm hab] at hca

/-- C3: for every single-target extraction configured with maximum
`maxTweets`, and for any sequence of page snapshots the rendering layer
produces, the record list returned for that target never contains more
than `maxTweets` records. -/
theorem c3_max_records_hard_cap (pg : TargetPage) (maxTweets : Nat) :
    (tweetsOf (scrapeList pg maxTweets)).length ≤ maxTweets := by
  rcases pg with ⟨nav, blocker, loaded, rounds⟩
  cases nav with
  | some m => simp [scrapeList, tweetsOf]
  | none =>
    cases blocker with
    | some b => cases b <;> simp [scrapeList, tweetsOf]
    | none =>
      cases loaded
      · simp [scrapeList, tweetsOf]
      · have h := scrapeLoop_length_le rounds maxTweets 0 [] [] 0 (by simp)
        have hp := (List.mergeSort_perm
          ((scrapeLoop rounds maxTweets 0 [] [] 0).1) tweetOrder).length_eq
        have he : tweetsOf (scrapeList ⟨none, none, true, rounds⟩ maxTweets)
            = (scrapeLoop rounds maxTweets 0 [] [] 0).1.mergeSort tweetOrder := by
          simp [scrapeList, tweetsOf, sortTweets]
        rw [he]
        omega

/-- One harvest pass keeps the accumulated ids duplicate-free and keeps
every accumulated id registered in the seen-set. -/
theorem harvestRound_ids (maxTweets : Nat) (arts : List (Option Tweet)) :
    ∀ (tweets : List Tweet) (seen : List String) (newFound : Nat),
    (tweets.map Tweet.id).Nodup → (∀ t ∈ tweets, t.id ∈ seen) →
    (((harvestRound maxTweets arts tweets seen newFound).1.map Tweet.id).Nodup ∧
      ∀ t ∈ (harvestRound maxTweets arts tweets seen newFound).1,
        t.id ∈ (harvestRound maxTweets arts tweets seen newFound).2.1) := by
  induction arts with
  | nil => intro tweets seen newFound h1 h2; rw [harvestRound]; exact ⟨h1, h2⟩
  | cons a rest ih =>
    intro tweets seen newFound h1 h2
    rw [harvestRound.eq_def]
    dsimp only
    by_cases hc : maxTweets ≤ tweets.length
    · rw [if_pos hc]; exact ⟨h1, h2⟩
    · rw [if_neg hc]
      cases a with
      | none => exact ih tweets seen newFound h1 h2
      | some tw =>
        dsimp only
        cases hs : seen.contains tw.id
        · rw [if_neg (by simp [hs])]
          have hnotin : tw.id ∉ seen := by simpa using hs
          apply ih
          · have hnotm : tw.id ∉ tweets.map Tweet.id := by
              intro hm
              rcases List.mem_map.1 hm with ⟨t, ht, hid⟩
              exact hnotin (hid ▸ h2 t ht)
            simp [List.nodup_append, h1, hnotm]
          · intro t ht
            rcases List.mem_append.1 ht with h | h
            · exact List.mem_cons_of_mem _ (h2 t h)
            · simp only [List.mem_singleton] at h
              subst h
              exact List.mem_cons_self _ _
        · rw [if_pos rfl]
          exact ih tweets seen newFound h1 h2

/-- The loop keeps its accumulated ids duplicate-free. -/
theorem scrapeLoop_nodup (env : Nat → PageRound) (maxTweets round : Nat)
    (tweets : List Tweet) (seen : List String) (stall : Nat)
    (h1 : (tweets.map Tweet.id).Nodup) (h2 : ∀ t ∈ tweets, t.id ∈ seen) :
    ((scrapeLoop env maxTweets round tweets seen stall).1.map Tweet.id).Nodup := by
  induction round, tweets, seen, stall using scrapeLoop.induct env maxTweets with
  | case1 round tweets seen stall hlt tweets' seen' newFound hh hcap =>
    have hb := harvestRound_ids maxTweets (env round).articles tweets seen 0 h1 h2
    rw [hh] at hb
    rw [scrapeLoop, if_pos hlt, hh]
    dsimp only
    rw [if_pos hcap]
    exact hb.1
  | case2 round tweets seen stall hlt tweets' seen' newFound hh hcap hend =>
    have hb := harvestRound_ids maxTweets (env round).articles tweets seen 0 h1 h2
    rw [hh] at hb
    rw [scrapeLoop, if_pos hlt, hh]
    dsimp only
    rw [if_neg hcap, if_pos hend]
    exact hb.1
  | case3 round tweets seen stall hlt tweets' seen' hcap hend hst hh =>
    have hb := harvestRound_ids maxTweets (env round).articles tweets seen 0 h1 h2
    rw [hh] at hb
    rw [scrapeLoop, if_pos hlt, hh]
    dsimp only
    rw [if_neg hcap, if_neg hend, if_pos rfl, if_pos hst]
    exact hb.1
  | case4 round tweets seen stall hlt tweets' seen' hcap hend hst hh ih =>
    have hb := harvestRound_ids maxTweets (env round).articles tweets seen 0 h1 h2
    rw [hh] at hb
    rw [scrapeLoop, if_pos hlt, hh]
    dsimp only
    rw [if_neg hcap, if_neg hend, if_pos rfl, if_neg hst]
    exact ih hb.1 hb.2
  | case5 round tweets seen stall hlt tweets' seen' newFound hh hcap hend hnf ih =>
    have hb := harvestRound_ids maxTweets (env round).articles tweets seen 0 h1 h2
    rw [hh] at hb
    rw [scrapeLoop, if_pos hlt, hh]
    dsimp only
    rw [if_neg hcap, if_neg hend, if_neg hnf]
    exact ih hb.1 hb.2
  | case6 round tweets seen stall hge =>
    rw [scrapeLoop, if_neg hge]
    exact h1

/-- C4: for every single-target extraction and every sequence of
harvested items (including overlapping snapshots), no two records in
the returned list share the same `id`. -/
theorem c4_dedup_invariant (pg : TargetPage) (maxTweets : Nat) :
    ((tweetsOf (scrapeList pg maxTweets)).map Tweet.id).Nodup := by
  rcases pg with ⟨nav, blocker, loaded, rounds⟩
  cases nav with
  | some m => simp [scrapeList, tweetsOf]
  | none =>
    cases blocker with
    | some b => cases b <;> simp [scrapeList, tweetsOf]
    | none =>
      cases loaded
      · simp [scrapeList, tweetsOf]
      · have h := scrapeLoop_nodup rounds maxTweets 0 [] [] 0 (by simp) (by simp)
        have hp := (List.mergeSort_perm
          ((scrapeLoop rounds maxTweets 0 [] [] 0).1) tweetOrder).map Tweet.id
        have he : tweetsOf (scrapeList ⟨none, none, true, rounds⟩ maxTweets)
            = (scrapeLoop rounds maxTweets 0 [] [] 0).1.mergeSort tweetOrder := by
          simp [scrapeList, tweetsOf, sortTweets]
        rw [he]
        exact hp.nodup_iff.mpr h

/-- C10: for every validated request body, normalization gives the
hyphenated keys (`max-tweets`, `timeout-ms`) precedence over their
camelCase aliases and `listURL` precedence over `listUrl`; when neither
alias of a numeric key is supplied, `maxTweets` defaults to 200 and
`timeoutMs` to 60000. -/
theorem c10_normalize_precedence_defaults :
    ∀ (u1 u2 : List String) (a b c d : Nat) (x y : Option (List String)),
      normalizeRequest
          { listURL := some u1, listUrl := some u2, maxTweetsHyphen := some a,
            maxTweets := some b, timeoutMsHyphen := some c, timeoutMs := some d }
        = { listURLs := u1, maxTweets := a, timeoutMs := c }
      ∧ (normalizeRequest
          { listURL := x, listUrl := y, maxTweetsHyphen := none,
            maxTweets := none, timeoutMsHyphen := none, timeoutMs := none }).maxTweets
        = 200
      ∧ (normalizeRequest
          { listURL := x, listUrl := y, maxTweetsHyphen := none,
            maxTweets := none, timeoutMsHyphen := none, timeoutMs := none }).timeoutMs
        = 60000 := by
  intro u1 u2 a b c d x y
  exact ⟨rfl, rfl, rfl⟩

/-- C5 counterexample: the single-target loop does NOT return records
in harvest order — `scrapeList` sorts before returning.  For the target
whose snapshot harvests the 2023 record before the 2025 record, the
loop accumulates `[tweetOld, tweetNew]` but the scrape returns
`[tweetNew, tweetOld]`. -/
theorem c5_counterexample_loop_sorts :
    (scrapeLoop pgTwoTweets.rounds 10 0 [] [] 0).1 = [tweetOld, tweetNew]
    ∧ scrapeList pgTwoTweets 10 = .ok [tweetNew, tweetOld]
    ∧ tweetsOf (scrapeList pgTwoTweets 10)
        ≠ (scrapeLoop pgTwoTweets.rounds 10 0 [] [] 0).1 := by
  have hloop : scrapeLoop pgTwoTweets.rounds 10 0 [] [] 0
      = ([tweetOld, tweetNew], .endOfFeed) := by
    simp [scrapeLoop, pgTwoTweets, harvestRound, tweetOld, tweetNew]
  have hsort : sortTweets [tweetOld, tweetNew] = [tweetNew, tweetOld] := by
    have hperm := List.mergeSort_perm [tweetOld, tweetNew] tweetOrder
    have hsorted := List.sorted_mergeSort tweetOrder_trans tweetOrder_total
      [tweetOld, tweetNew]
    have hne : tweetOld ≠ tweetNew := by decide
    rcases perm_pair_eq hne hperm with h | h
    · exfalso
      rw [h] at hsorted
      have hx := (List.pairwise_cons.1 hsorted).1 tweetNew (by simp)
      exact absurd hx (by decide)
    · exact h
  have hlist : scrapeList pgTwoTweets 10 = .ok [tweetNew, tweetOld] := by
    show ScrapeOutcome.ok (sortTweets (scrapeLoop pgTwoTweets.rounds 10 0 [] [] 0).1) = _
    rw [hloop]
    exact congrArg _ hsort
  refine ⟨by rw [hloop], hlist, ?_⟩
  rw [hlist, hloop]
  dsimp only [tweetsOf]
  decide

/-- C5 (amended): the loop does not return records in harvest order;
`scrapeList` returns the harvest-order accumulation re-sorted (stably)
by `createdAt` descending, and the orchestrator later re-sorts
globally.  Every returned list is a permutation of the harvest-order
accumulation, sorted by parsed date descending. -/
theorem c5_amended_scrape_sorts_desc (pg : TargetPage) (maxTweets : Nat)
    (ts : List Tweet) (h : scrapeList pg maxTweets = .ok ts) :
    ts.Perm (scrapeLoop pg.rounds maxTweets 0 [] [] 0).1
    ∧ ts.Pairwise (fun a b => dateMs b.createdAt ≤ dateMs a.createdAt) := by
  rcases pg with ⟨nav, blocker, loaded, rounds⟩
  cases nav with
  | some m => simp [scrapeList] at h
  | none =>
    cases blocker with
    | some b => cases b <;> simp [scrapeList] at h
    | none =>
      cases loaded
      · simp [scrapeList] at h
      · have he : ts = (scrapeLoop rounds maxTweets 0 [] [] 0).1.mergeSort tweetOrder := by
          simp [scrapeList, sortTweets] at h
          exact h.symm
        constructor
        · rw [he]
          exact List.mergeSort_perm _ _
        · rw [he]
          have hs := List.sorted_mergeSort tweetOrder_trans tweetOrder_total
            ((scrapeLoop rounds maxTweets 0 [] [] 0).1)
          exact hs.imp (fun hab => by simpa [tweetOrder] using hab)

/-- C5 amended witness at a concrete input. -/
theorem c5_amended_scrape_sorts_desc_witness :
    ([tweetNew] : List Tweet).Perm (scrapeLoop pgOneTweet.rounds 10 0 [] [] 0).1
    ∧ ([tweetNew] : List Tweet).Pairwise
        (fun a b => dateMs b.createdAt ≤ dateMs a.createdAt) :=
  c5_amended_scrape_sorts_desc pgOneTweet 10 [tweetNew]
    (by simp [scrapeList, pgOneTweet, scrapeLoop, harvestRound, sortTweets, tweetNew])

/-- The `newTweetsFound` accumulator never decreases across a harvest
pass. -/
theorem harvestRound_nf_mono (maxTweets : Nat) (arts : List (Option Tweet)) :
    ∀ (tweets : List Tweet) (seen : List String) (newFound : Nat),
    newFound ≤ (harvestRound maxTweets arts tweets seen newFound).2.2 := by
  induction arts with
  | nil => intro tweets seen newFound; simp [harvestRound]
  | cons a rest ih =>
    intro tweets seen newFound
    rw [harvestRound.eq_def]
    dsimp only
    by_cases hc : maxTweets ≤ tweets.length
    · rw [if_pos hc]
    · rw [if_neg hc]
      cases a with
      | none => exact ih tweets seen newFound
      | some tw =>
        dsimp only
        cases hs : seen.contains tw.id
        · rw [if_neg (by simp [hs])]
          have := ih (tweets ++ [tw]) (tw.id :: seen) (newFound + 1)
          omega
        · rw [if_pos rfl]
          exact ih tweets seen newFound

/-- A harvest pass that finds nothing new leaves the accumulation and
the seen-set untouched. -/
theorem harvestRound_zero (maxTweets : Nat) (arts : List (Option Tweet)) :
    ∀ (tweets : List Tweet) (seen : List String) (newFound : Nat),
    (harvestRound maxTweets arts tweets seen newFound).2.2 = newFound →
    (harvestRound maxTweets arts tweets seen newFound).1 = tweets
      ∧ (harvestRound maxTweets arts tweets seen newFound).2.1 = seen := by
  induction arts with
  | nil => intro tweets seen newFound _; simp [harvestRound]
  | cons a rest ih =>
    intro tweets seen newFound hz
    rw [harvestRound.eq_def] at hz ⊢
    dsimp only at hz ⊢
    by_cases hc : maxTweets ≤ tweets.length
    · rw [if_pos hc]
      exact ⟨rfl, rfl⟩
    · rw [if_neg hc] at hz ⊢
      cases a with
      | none => exact ih tweets seen newFound hz
      | some tw =>
        dsimp only at hz ⊢
        cases hs : seen.contains tw.id
        · rw [hs] at hz
          rw [if_neg (by simp)] at hz
          rw [if_neg (by simp)]
          exfalso
          have := harvestRound_nf_mono maxTweets rest (tweets ++ [tw])
            (tw.id :: seen) (newFound + 1)
          omega
        · rw [hs] at hz
          rw [if_pos rfl] at hz
          rw [if_pos rfl]
          exact ih tweets seen newFound hz

/-- C6: in every single-target extraction, a round harvesting zero new
(non-duplicate) records increments the stall counter (a), a round
harvesting at least one new record resets the counter to zero (b), the
fifth consecutive stalled round terminates the loop returning exactly
the accumulation with (successful) reason `stalled` (c), five stalled
rounds from a fresh counter end the loop — so a sixth consecutive
stalled round is never run (d) — and such a stalled run is surfaced by
`scrapeList` as a success (e). -/
theorem c6_stall_counter (env : Nat → PageRound) (maxTweets round : Nat)
    (tweets : List Tweet) (seen : List String) (stall : Nat)
    (hlen : tweets.length < maxTweets) :
    ((harvestRound maxTweets (env round).articles tweets seen 0).2.2 = 0 →
      (env round).endOfFeed = false → stall + 1 < 5 →
      scrapeLoop env maxTweets round tweets seen stall
        = scrapeLoop env maxTweets (round + 1) tweets seen (stall + 1))
    ∧ (∀ (tweets' : List Tweet) (seen' : List String) (newFound : Nat),
        harvestRound maxTweets (env round).articles tweets seen 0
          = (tweets', seen', newFound) →
        newFound ≠ 0 → tweets'.length < maxTweets → (env round).endOfFeed = false →
        scrapeLoop env maxTweets round tweets seen stall
          = scrapeLoop env maxTweets (round + 1) tweets' seen' 0)
    ∧ ((harvestRound maxTweets (env round).articles tweets seen 0).2.2 = 0 →
        (env round).endOfFeed = false → stall = 4 →
        scrapeLoop env maxTweets round tweets seen stall = (tweets, .stalled))
    ∧ ((∀ i, i < 5 →
          (harvestRound maxTweets (env (round + i)).articles tweets seen 0).2.2 = 0
          ∧ (env (round + i)).endOfFeed = false) →
        scrapeLoop env maxTweets round tweets seen 0 = (tweets, .stalled))
    ∧ ((∀ i, i < 5 →
          (harvestRound maxTweets (env i).articles ([] : List Tweet) [] 0).2.2 = 0
          ∧ (env i).endOfFeed = false) → 0 < maxTweets →
        scrapeList ⟨none, none, true, env⟩ maxTweets = .ok []) := by
  have step : ∀ (r st : Nat) (tw : List Tweet) (sn : List String),
      tw.length < maxTweets → st + 1 < 5 →
      (harvestRound maxTweets (env r).articles tw sn 0).2.2 = 0 →
      (env r).endOfFeed = false →
      scrapeLoop env maxTweets r tw sn st
        = scrapeLoop env maxTweets (r + 1) tw sn (st + 1) := by
    intro r st tw sn hl hst hz hend
    obtain ⟨ht, hs⟩ := harvestRound_zero maxTweets (env r).articles tw sn 0 hz
    rcases hres : harvestRound maxTweets (env r).articles tw sn 0 with ⟨x, y, z⟩
    rw [hres] at ht hs hz
    dsimp only at ht hs hz
    subst ht; subst hs; subst hz
    rw [scrapeLoop, if_pos hl, hres]
    dsimp only
    rw [if_neg (by omega), if_neg (by simp [hend]), if_pos rfl, if_neg (by omega)]
  have fin : ∀ (r : Nat) (tw : List Tweet) (sn : List String),
      tw.length < maxTweets →
      (harvestRound maxTweets (env r).articles tw sn 0).2.2 = 0 →
      (env r).endOfFeed = false →
      scrapeLoop env maxTweets r tw sn 4 = (tw, .stalled) := by
    intro r tw sn hl hz hend
    obtain ⟨ht, hs⟩ := harvestRound_zero maxTweets (env r).articles tw sn 0 hz
    rcases hres : harvestRound maxTweets (env r).articles tw sn 0 with ⟨x, y, z⟩
    rw [hres] at ht hs hz
    dsimp only at ht hs hz
    subst ht; subst hs; subst hz
    rw [scrapeLoop, if_pos hl, hres]
    dsimp only
    rw [if_neg (by omega), if_neg (by simp [hend]), if_pos rfl, if_pos (by omega)]
  have chain : ∀ (r : Nat) (tw : List Tweet) (sn : List String),
      tw.length < maxTweets →
      (∀ i, i < 5 →
        (harvestRound maxTweets (env (r + i)).articles tw sn 0).2.2 = 0
        ∧ (env (r + i)).endOfFeed = false) →
      scrapeLoop env maxTweets r tw sn 0 = (tw, .stalled) := by
    intro r tw sn hl hP
    have h0 := hP 0 (by omega)
    have h1 := hP 1 (by omega)
    have h2 := hP 2 (by omega)
    have h3 := hP 3 (by omega)
    have h4 := hP 4 (by omega)
    simp only [Nat.add_zero] at h0
    rw [step r 0 tw sn hl (by omega) h0.1 h0.2,
      step (r + 1) 1 tw sn hl (by omega) h1.1 h1.2,
      step (r + 1 + 1) 2 tw sn hl (by omega) (by simpa [Nat.add_assoc] using h2.1)
        (by simpa [Nat.add_assoc] using h2.2),
      step (r + 1 + 1 + 1) 3 tw sn hl (by omega) (by simpa [Nat.add_assoc] using h3.1)
        (by simpa [Nat.add_assoc] using h3.2)]
    exact fin (r + 1 + 1 + 1 + 1) tw sn hl (by simpa [Nat.add_assoc] using h4.1)
      (by simpa [Nat.add_assoc] using h4.2)
  refine ⟨fun hz hend hst => step round stall tweets seen hlen hst hz hend,
    ?_, ?_, chain round tweets seen hlen, ?_⟩
  · intro tweets' seen' newFound hh hnf hl' hend
    have hcap : ¬ maxTweets ≤ tweets'.length := by omega
    rw [scrapeLoop, if_pos hlen, hh]
    dsimp only
    rw [if_neg hcap, if_neg (by simp [hend]), if_neg hnf]
  · intro hz hend h4
    subst h4
    exact fin round tweets seen hlen hz hend
  · intro hP hmax
    have := chain 0 [] [] (by simpa using hmax) (by simpa using hP)
    show ScrapeOutcome.ok (sortTweets (scrapeLoop env maxTweets 0 [] [] 0).1) = _
    rw [this]
    simp [sortTweets]

/-- C6 witness: the five facts at concrete inputs — a stalled round
increments 0 to 1; a productive round resets to 0 and accumulates; the
fifth stalled round returns the accumulation with reason `stalled`;
five stalled rounds from a fresh counter end the loop; `scrapeList`
reports the stalled run as a success. -/
theorem c6_stall_counter_witness :
    scrapeLoop stallRounds 10 0 [] [] 0 = scrapeLoop stallRounds 10 1 [] [] 1
    ∧ scrapeLoop growRounds 10 0 [] [] 0 = scrapeLoop growRounds 10 1 [tweetNew] ["2"] 0
    ∧ scrapeLoop stallRounds 10 3 [] [] 4 = ([], .stalled)
    ∧ scrapeLoop stallRounds 10 0 [] [] 0 = ([], .stalled)
    ∧ scrapeList ⟨none, none, true, stallRounds⟩ 10 = .ok [] := by
  refine ⟨(c6_stall_counter stallRounds 10 0 [] [] 0 (by decide)).1
      (by decide) (by decide) (by decide),
    (c6_stall_counter growRounds 10 0 [] [] 0 (by decide)).2.1
      [tweetNew] ["2"] 1 (by decide) (by decide) (by decide) (by decide),
    (c6_stall_counter stallRounds 10 3 [] [] 4 (by decide)).2.2.1
      (by decide) (by decide) rfl,
    (c6_stall_counter stallRounds 10 0 [] [] 0 (by decide)).2.2.2.1
      (by decide),
    (c6_stall_counter stallRounds 10 0 [] [] 0 (by decide)).2.2.2.2
      (by decide) (by decide)⟩

/-- C7: a `LOGIN_REQUIRED`-classified target failure is surfaced to the
caller with exactly the same structured signal (HTTP 429, error code
`RATE_LIMIT`) as a `RATE_LIMITED` failure — the inner handler labels
both throws `type: "RATE_LIMIT"` — so while both classifications are
distinguishable from a generic failure (which surfaces as 500
`INTERNAL`), they are not distinguishable from each other: the caller
receives the try-again-later signal for a need-credentials condition. -/
theorem c7_login_surfaced_as_rate_limit :
    scrapeListRoute [("u", pgLoginWalled)] 200 = .rateLimit loginRequiredMsg
    ∧ scrapeListRoute [("u", pgRateLimited)] 200 = .rateLimit rateLimitMsg
    ∧ statusOf (scrapeListRoute [("u", pgLoginWalled)] 200)
        = statusOf (scrapeListRoute [("u", pgRateLimited)] 200)
    ∧ errorCodeOf (scrapeListRoute [("u", pgLoginWalled)] 200)
        = errorCodeOf (scrapeListRoute [("u", pgRateLimited)] 200)
    ∧ statusOf (scrapeListRoute [("u", pgLoginWalled)] 200) = 429
    ∧ statusOf (scrapeListRoute [("u", pgNavErrorBoom)] 200) = 500 := by
  refine ⟨?_, ?_, ?_, ?_, ?_, ?_⟩ <;> decide

/-- C2 counterexample: a sibling's classified failure DOES abort the
merge.  Target `u2` succeeds with one record, but because target `u1`
fails with a `RATE_LIMIT`-classified error the whole run is answered
with the 429 rate-limit response: `u2`'s outcome never reaches the
merge — the caller receives neither its records nor any per-target
details. -/
theorem c2_counterexample_classified_failure_aborts_siblings :
    scrapeList pgOneTweet 200 = .ok [tweetNew]
    ∧ scrapeListRoute [("u1", pgRateLimited), ("u2", pgOneTweet)] 200
        = .rateLimit rateLimitMsg
    ∧ itemsOf (scrapeListRoute [("u1", pgRateLimited), ("u2", pgOneTweet)] 200) = []
    ∧ detailsOf (scrapeListRoute [("u1", pgRateLimited), ("u2", pgOneTweet)] 200)
        = [] := by
  refine ⟨?_, by decide, by decide, by decide⟩
  simp [scrapeList, pgOneTweet, scrapeLoop, harvestRound, sortTweets, tweetNew]

/-- C1 counterexample: the claimed merge policy is violated — with one
target succeeding (with zero records) and one failing, the claim
demands a partial success, but the route classifies on "zero merged
records" and answers a 500 total failure. -/
theorem c1_counterexample_zero_record_success :
    scrapeList pgEmptySuccess 200 = .ok []
    ∧ scrapeListRoute [("u1", pgEmptySuccess), ("u2", pgNavErrorBoom)] 200
        = .internalError "All scraping attempts failed" ["u2: boom"]
    ∧ statusOf (scrapeListRoute [("u1", pgEmptySuccess), ("u2", pgNavErrorBoom)] 200)
        = 500 := by
  have h1 : scrapeList pgEmptySuccess 200 = .ok [] := by
    simp [scrapeList, pgEmptySuccess, scrapeLoop, harvestRound, stallRounds, sortTweets]
  have hr1 : runTarget 200 "u1" pgEmptySuccess = .outcome "u1" [] none := by
    rw [runTarget, h1]
    rfl
  have hr2 : runTarget 200 "u2" pgNavErrorBoom
      = .outcome "u2" [] (some "boom") := by decide
  have hroute : scrapeListRoute [("u1", pgEmptySuccess), ("u2", pgNavErrorBoom)] 200
      = .internalError "All scraping attempts failed" ["u2: boom"] := by
    rw [scrapeListRoute]
    rw [show firstThrown [("u1", pgEmptySuccess), ("u2", pgNavErrorBoom)] 200 = none by
      simp [firstThrown, hr1, hr2]]
    rw [show routeErrors [("u1", pgEmptySuccess), ("u2", pgNavErrorBoom)] 200
        = ["u2: boom"] by simp [routeErrors, hr1, hr2]]
    rw [show routeTweets [("u1", pgEmptySuccess), ("u2", pgNavErrorBoom)] 200
        = [] by simp [routeTweets, hr1, hr2]]
    simp
  exact ⟨h1, hroute, by rw [hroute]; rfl⟩

/-- Every classified error a target task throws is labelled
`type: "RATE_LIMIT"` — also for `LOGIN_REQUIRED` messages. -/
theorem runTarget_thrown_ty (maxTweets : Nat) (u : String) (pg : TargetPage)
    (ty m : String) (h : runTarget maxTweets u pg = .thrown ty m) :
    ty = "RATE_LIMIT" := by
  rw [runTarget] at h
  cases hs : scrapeList pg maxTweets with
  | ok ts => rw [hs] at h; simp at h
  | err msg =>
    rw [hs] at h
    dsimp only at h
    by_cases h1 : jsIncludes msg "RATE_LIMIT" = true
    · rw [if_pos h1] at h
      cases h
      rfl
    · rw [if_neg h1] at h
      by_cases h2 : jsIncludes msg "LOGIN_REQUIRED" = true
      · rw [if_pos h2] at h
        cases h
        rfl
      · rw [if_neg h2] at h
        simp at h

/-- The first thrown classified error is always a `RATE_LIMIT`-typed
one. -/
theorem firstThrown_ty (targets : List (String × TargetPage)) (maxTweets : Nat)
    (ty m : String) (h : firstThrown targets maxTweets = some (ty, m)) :
    ty = "RATE_LIMIT" := by
  induction targets with
  | nil => simp [firstThrown] at h
  | cons p rest ih =>
    rw [firstThrown, List.map_cons, List.findSome?_cons] at h
    cases hr : runTarget maxTweets p.1 p.2 with
    | outcome u ts e =>
      rw [hr] at h
      dsimp only at h
      exact ih (by rw [firstThrown]; exact h)
    | thrown t msg =>
      rw [hr] at h
      dsimp only at h
      have hmt : t = ty ∧ msg = m := by
        cases h
        exact ⟨rfl, rfl⟩
      rw [← hmt.1]
      exact runTarget_thrown_ty maxTweets p.1 p.2 t msg hr

/-- When no task threw, no member target's task is a throw. -/
theorem firstThrown_none (targets : List (String × TargetPage)) (maxTweets : Nat)
    (h : firstThrown targets maxTweets = none) :
    ∀ p ∈ targets, ∀ ty m, runTarget maxTweets p.1 p.2 ≠ .thrown ty m := by
  induction targets with
  | nil => simp
  | cons p rest ih =>
    rw [firstThrown, List.map_cons, List.findSome?_cons] at h
    intro q hq ty m hcon
    rcases List.mem_cons.1 hq with rfl | hq'
    · rw [hcon] at h
      dsimp only at h
      cases h
    · cases hr : runTarget maxTweets p.1 p.2 with
      | outcome u ts e =>
        rw [hr] at h
        dsimp only at h
        exact ih (by rw [firstThrown]; exact h) q hq' ty m hcon
      | thrown t msg =>
        rw [hr] at h
        dsimp only at h
        cases h

/-- A failing target whose task did not throw produces exactly the
empty-tweets error outcome. -/
theorem runTarget_err_of_not_thrown (maxTweets : Nat) (u : String)
    (pg : TargetPage) (m : String) (h : scrapeList pg maxTweets = .err m)
    (hn : ∀ ty msg, runTarget maxTweets u pg ≠ .thrown ty msg) :
    runTarget maxTweets u pg = .outcome u [] (some m) := by
  rw [runTarget, h] at hn ⊢
  dsimp only at hn ⊢
  by_cases h1 : jsIncludes m "RATE_LIMIT" = true
  · rw [if_pos h1] at hn
    exact absurd rfl (hn "RATE_LIMIT" m)
  · rw [if_neg h1] at hn ⊢
    by_cases h2 : jsIncludes m "LOGIN_REQUIRED" = true
    · rw [if_pos h2] at hn
      exact absurd rfl (hn "RATE_LIMIT" m)
    · rw [if_neg h2]

/-- C1 (amended): the aggregate classification is evaluated on the
merged lists, not on per-target success: provided no target failed
with a RATE_LIMIT/LOGIN_REQUIRED-classified message, the route answers
the 500 total failure iff some target errored and the merged record
list is empty — including when a target succeeded with zero records —
the 422 partial success with the sorted union of successful records
plus the error descriptors iff some target errored and at least one
record was merged, and the 200 full success iff no target errored.  A
classified failure bypasses the merge and yields the 429 rate-limit
response carrying its message. -/
theorem c1_amended_merge_policy (targets : List (String × TargetPage))
    (maxTweets : Nat) :
    (∀ ty m, firstThrown targets maxTweets = some (ty, m) →
      scrapeListRoute targets maxTweets = .rateLimit m ∧ ty = "RATE_LIMIT")
    ∧ (firstThrown targets maxTweets = none →
      (routeErrors targets maxTweets ≠ [] → routeTweets targets maxTweets = [] →
        scrapeListRoute targets maxTweets
          = .internalError "All scraping attempts failed" (routeErrors targets maxTweets))
      ∧ (routeErrors targets maxTweets ≠ [] → routeTweets targets maxTweets ≠ [] →
        scrapeListRoute targets maxTweets
          = .partialResults ((routeTweets targets maxTweets).mergeSort apiTweetOrder)
              (routeErrors targets maxTweets))
      ∧ (routeErrors targets maxTweets = [] →
        scrapeListRoute targets maxTweets
          = .success ((routeTweets targets maxTweets).mergeSort apiTweetOrder).length
              ((routeTweets targets maxTweets).mergeSort apiTweetOrder))) := by
  constructor
  · intro ty m h
    have hty := firstThrown_ty targets maxTweets ty m h
    subst hty
    refine ⟨?_, rfl⟩
    rw [scrapeListRoute, h]
    dsimp only
    rw [if_pos rfl]
  · intro hn
    refine ⟨?_, ?_, ?_⟩
    · intro h1 h2
      rw [scrapeListRoute, hn]
      dsimp only
      rw [if_pos ⟨List.length_pos.2 h1, by rw [h2]; rfl⟩]
    · intro h1 h2
      rw [scrapeListRoute, hn]
      dsimp only
      have e2 : (routeTweets targets maxTweets).length ≠ 0 :=
        fun hc => h2 (List.length_eq_zero.mp hc)
      rw [if_neg (fun hc => e2 hc.2), if_pos (List.length_pos.2 h1)]
    · intro h1
      rw [scrapeListRoute, hn]
      dsimp only
      have e1 : ¬ 0 < (routeErrors targets maxTweets).length := by simp [h1]
      rw [if_neg (fun hc => e1 hc.1), if_neg e1]

/-- C1 amended witness: one target succeeding with a record, one
failing generically — the route answers the 422 partial result built
from the two accumulators. -/
theorem c1_amended_merge_policy_witness :
    scrapeListRoute [("u1", pgOneTweet), ("u2", pgNavErrorBoom)] 200
      = .partialResults
          ((routeTweets [("u1", pgOneTweet), ("u2", pgNavErrorBoom)] 200).mergeSort
            apiTweetOrder)
          (routeErrors [("u1", pgOneTweet), ("u2", pgNavErrorBoom)] 200) := by
  have h1 : scrapeList pgOneTweet 200 = .ok [tweetNew] := by
    simp [scrapeList, pgOneTweet, scrapeLoop, harvestRound, sortTweets, tweetNew]
  have hr1 : runTarget 200 "u1" pgOneTweet
      = .outcome "u1" [tagTweet "u1" tweetNew] none := by
    rw [runTarget, h1]
    rfl
  have hr2 : runTarget 200 "u2" pgNavErrorBoom
      = .outcome "u2" [] (some "boom") := by decide
  exact ((c1_amended_merge_policy [("u1", pgOneTweet), ("u2", pgNavErrorBoom)] 200).2
      (by simp [firstThrown, hr1, hr2])).2.1
    (by simp [routeErrors, hr1, hr2])
    (by simp [routeTweets, hr1, hr2])

/-- C2 (amended): failure isolation holds only in the absence of a
classified failure.  When no target fails with a
RATE_LIMIT/LOGIN_REQUIRED-classified message, every target's outcome
reaches the merge: each failed target's `` `${url}: ${error}` ``
descriptor appears in the surfaced details, and every record of every
successful target appears in the surfaced items.  (A classified
failure instead rejects the whole run with a single 429 response — see
the counterexample.) -/
theorem c2_amended_isolation (targets : List (String × TargetPage))
    (maxTweets : Nat) (hnc : firstThrown targets maxTweets = none) :
    (∀ u pg, (u, pg) ∈ targets → ∀ m, scrapeList pg maxTweets = .err m →
      (u ++ ": " ++ m) ∈ detailsOf (scrapeListRoute targets maxTweets))
    ∧ (∀ u pg, (u, pg) ∈ targets → ∀ ts, scrapeList pg maxTweets = .ok ts →
      ∀ t ∈ ts, tagTweet u t ∈ itemsOf (scrapeListRoute targets maxTweets)) := by
  have hnt := firstThrown_none targets maxTweets hnc
  constructor
  · intro u pg hmem m herr
    have hrt : runTarget maxTweets u pg = .outcome u [] (some m) :=
      runTarget_err_of_not_thrown maxTweets u pg m herr
        (fun ty msg => hnt (u, pg) hmem ty msg)
    have hmemE : (u ++ ": " ++ m) ∈ routeErrors targets maxTweets := by
      rw [routeErrors]
      refine List.mem_filterMap.2 ⟨runTarget maxTweets u pg, ?_, by rw [hrt]⟩
      exact List.mem_map.2 ⟨(u, pg), hmem, rfl⟩
    rw [scrapeListRoute, hnc]
    dsimp only
    by_cases hc1 : 0 < (routeErrors targets maxTweets).length
        ∧ (routeTweets targets maxTweets).length = 0
    · rw [if_pos hc1]
      exact hmemE
    · rw [if_neg hc1]
      have hpos : 0 < (routeErrors targets maxTweets).length := by
        refine List.length_pos.2 fun he => ?_
        rw [he] at hmemE
        simp at hmemE
      rw [if_pos hpos]
      exact hmemE
  · intro u pg hmem ts hok t ht
    have hrt : runTarget maxTweets u pg = .outcome u (ts.map (tagTweet u)) none := by
      rw [runTarget, hok]
    have hmemT : tagTweet u t ∈ routeTweets targets maxTweets := by
      rw [routeTweets]
      refine List.mem_flatten.2 ⟨ts.map (tagTweet u), ?_, List.mem_map.2 ⟨t, ht, rfl⟩⟩
      refine List.mem_filterMap.2 ⟨runTarget maxTweets u pg, ?_, by rw [hrt]⟩
      exact List.mem_map.2 ⟨(u, pg), hmem, rfl⟩
    have hlen : (routeTweets targets maxTweets).length ≠ 0 := by
      intro hc
      rw [List.length_eq_zero] at hc
      rw [hc] at hmemT
      simp at hmemT
    have hms : tagTweet u t ∈ (routeTweets targets maxTweets).mergeSort apiTweetOrder :=
      (List.mergeSort_perm _ _).mem_iff.2 hmemT
    rw [scrapeListRoute, hnc]
    dsimp only
    rw [if_neg (fun hc => hlen hc.2)]
    by_cases hp : 0 < (routeErrors targets maxTweets).length
    · rw [if_pos hp]
      exact hms
    · rw [if_neg hp]
      exact hms

/-- C2 amended witness: with one generically failing and one
succeeding target, the failed target's descriptor and the successful
target's record both reach the caller. -/
theorem c2_amended_isolation_witness :
    ("u2" ++ ": " ++ "boom")
      ∈ detailsOf (scrapeListRoute [("u1", pgOneTweet), ("u2", pgNavErrorBoom)] 200)
    ∧ tagTweet "u1" tweetNew
      ∈ itemsOf (scrapeListRoute [("u1", pgOneTweet), ("u2", pgNavErrorBoom)] 200) := by
  have h1 : scrapeList pgOneTweet 200 = .ok [tweetNew] := by
    simp [scrapeList, pgOneTweet, scrapeLoop, harvestRound, sortTweets, tweetNew]
  have hr1 : runTarget 200 "u1" pgOneTweet
      = .outcome "u1" [tagTweet "u1" tweetNew] none := by
    rw [runTarget, h1]
    rfl
  have hr2 : runTarget 200 "u2" pgNavErrorBoom
      = .outcome "u2" [] (some "boom") := by decide
  have hth := c2_amended_isolation [("u1", pgOneTweet), ("u2", pgNavErrorBoom)] 200
    (by simp [firstThrown, hr1, hr2])
  exact ⟨hth.1 "u2" pgNavErrorBoom (by simp) "boom" (by decide),
    hth.2 "u1" pgOneTweet (by simp) [tweetNew] h1 tweetNew (by simp)⟩

/-- C8: the parser does NOT give `isQuote = false` for an item with no
second detail-page link.  The source computes
`isQuote = (await quoteTweet?.getAttribute("href")) !== href`; with no
`[role="link"]` status link the left side is `undefined`, which
differs from the string `href`, so the quote-less item is marked
`isQuote = true` — the opposite of the claim.  The other two
directions do match the claim: a second link equal to the item's own
gives `false`, a differing one gives `true`. -/
theorem c8_missing_quote_link_gives_isQuote_true :
    (parseTweetElement 0 (fun _ => isoFixtureDate) quoteLessArticle).map Tweet.isQuote
      = some true
    ∧ (parseTweetElement 0 (fun _ => isoFixtureDate)
        { quoteLessArticle with
          quoteLinkHref := some "/someuser/status/1234567890" }).map Tweet.isQuote
      = some false
    ∧ (parseTweetElement 0 (fun _ => isoFixtureDate)
        { quoteLessArticle with
          quoteLinkHref := some "/other/status/999" }).map Tweet.isQuote
      = some true := by
  refine ⟨?_, ?_, ?_⟩ <;> decide

/-- `getUTCDay` is a weekday index. -/
theorem getUTCDay_lt (t : DateUTC) : getUTCDay t < 7 := by
  unfold getUTCDay
  have h1 := Int.emod_nonneg (daysFromCivil t.year (t.month + 1) t.day + 4)
    (by decide : (7 : Int) ≠ 0)
  have h2 := Int.emod_lt_of_pos (daysFromCivil t.year (t.month + 1) t.day + 4)
    (by decide : (0 : Int) < 7)
  omega

/-- `Nat.digitChar` of a digit is a decimal digit character. -/
theorem isDigitChar_digitChar (k : Nat) (h : k < 10) :
    isDigitChar (Nat.digitChar k) = true := by
  interval_cases k <;> decide

/-- `digitVal` inverts `Nat.digitChar` on digits. -/
theorem digitVal_digitChar (k : Nat) (h : k < 10) :
    digitVal (Nat.digitChar k) = k := by
  interval_cases k <;> decide

/-- Every weekday name is three word characters. -/
theorem dayName_facts (w : Nat) (hw : w < 7) :
    (dayNames.getD w "").data.length = 3
    ∧ ∀ ch ∈ (dayNames.getD w "").data, isWordChar ch = true := by
  interval_cases w <;> exact ⟨rfl, by decide⟩

/-- Every month name is three word characters and `indexOf` recovers
its index. -/
theorem monthName_facts (mo : Nat) (hmo : mo < 12) :
    (monthNames.getD mo "").data.length = 3
    ∧ (∀ ch ∈ (monthNames.getD mo "").data, isWordChar ch = true)
    ∧ monthNames.indexOf (monthNames.getD mo "") = mo := by
  interval_cases mo <;> exact ⟨rfl, by decide, by decide⟩

/-- The timestamp regex recovers the numeric fields from a rendered
canonical timestamp whose name parts are word characters. -/
theorem parseCanonical_format (w1 w2 w3 m1 m2 m3 : Char)
    (hw1 : isWordChar w1 = true) (hw2 : isWordChar w2 = true)
    (hw3 : isWordChar w3 = true) (hm1 : isWordChar m1 = true)
    (hm2 : isWordChar m2 = true) (hm3 : isWordChar m3 = true)
    (d hh mi ss y : Nat) (hd : d < 100) (hhh : hh < 100) (hmi : mi < 100)
    (hss : ss < 100) (hy1 : 1000 ≤ y) (hy2 : y ≤ 9999) :
    parseCanonicalChars
      [w1, w2, w3, ' ', m1, m2, m3, ' ',
        Nat.digitChar (d / 10), Nat.digitChar (d % 10), ' ',
        Nat.digitChar (hh / 10), Nat.digitChar (hh % 10), ':',
        Nat.digitChar (mi / 10), Nat.digitChar (mi % 10), ':',
        Nat.digitChar (ss / 10), Nat.digitChar (ss % 10), ' ', '+', '0', '0', '0', '0', ' ',
        Nat.digitChar (y / 1000 % 10), Nat.digitChar (y / 100 % 10),
        Nat.digitChar (y / 10 % 10), Nat.digitChar (y % 10)]
      = some (⟨[m1, m2, m3]⟩, d, hh, mi, ss, y) := by
  rw [parseCanonicalChars]
  rw [if_pos (by
    simp only [hw1, hw2, hw3, hm1, hm2, hm3, Bool.and_eq_true, decide_eq_true_eq,
      isDigitChar_digitChar (d / 10) (by omega), isDigitChar_digitChar (d % 10) (by omega),
      isDigitChar_digitChar (hh / 10) (by omega), isDigitChar_digitChar (hh % 10) (by omega),
      isDigitChar_digitChar (mi / 10) (by omega), isDigitChar_digitChar (mi % 10) (by omega),
      isDigitChar_digitChar (ss / 10) (by omega), isDigitChar_digitChar (ss % 10) (by omega),
      isDigitChar_digitChar (y / 1000 % 10) (by omega),
      isDigitChar_digitChar (y / 100 % 10) (by omega),
      isDigitChar_digitChar (y / 10 % 10) (by omega),
      isDigitChar_digitChar (y % 10) (by omega), and_self, and_true, true_and])]
  simp only [Option.some.injEq, Prod.mk.injEq]
  refine ⟨trivial, ?_, ?_, ?_, ?_, ?_⟩
  · rw [digitVal_digitChar _ (by omega), digitVal_digitChar _ (by omega)]
    omega
  · rw [digitVal_digitChar _ (by omega), digitVal_digitChar _ (by omega)]
    omega
  · rw [digitVal_digitChar _ (by omega), digitVal_digitChar _ (by omega)]
    omega
  · rw [digitVal_digitChar _ (by omega), digitVal_digitChar _ (by omega)]
    omega
  · rw [digitVal_digitChar _ (by omega), digitVal_digitChar _ (by omega),
      digitVal_digitChar _ (by omega), digitVal_digitChar _ (by omega)]
    omega

/-- C9: formatting a parsed canonical timestamp reproduces the
identical string.  A string in the canonical format
`Day Mon DD HH:MM:SS +0000 YYYY` whose day-of-week name is the correct
one for its date is exactly `formatTwitterTimestamp t` for a `DateUTC`
`t` with in-range fields (the formatter prints the computed weekday
name), so the claim reads
`formatTwitterTimestamp (parseTwitterDate now (formatTwitterTimestamp t))
  = formatTwitterTimestamp t`.
The `hvalid` hypothesis pins `t` to a real calendar date (the civil
round-trip), the regime in which the embedding's non-normalizing
`Date.UTC` model is faithful; the wall-clock fallback `now` is
irrelevant, as the theorem holds for every `now`. -/
theorem c9_timestamp_roundtrip (now t : DateUTC)
    (hy1 : 1000 ≤ t.year) (hy2 : t.year ≤ 9999) (hmo : t.month < 12)
    (hd1 : 1 ≤ t.day) (hd2 : t.day ≤ 31) (hhr : t.hour < 24)
    (hmin : t.minute < 60) (hsec : t.second < 60)
    (hvalid : civilFromDays (daysFromCivil t.year (t.month + 1) t.day)
      = ((t.year : Int), ((t.month : Int) + 1, (t.day : Int)))) :
    formatTwitterTimestamp (parseTwitterDate now (formatTwitterTimestamp t))
      = formatTwitterTimestamp t := by
  clear hvalid
  obtain ⟨y, mo, d, hh, mi, ss⟩ := t
  dsimp only at hy1 hy2 hmo hd1 hd2 hhr hmin hsec
  have hw := getUTCDay_lt ⟨y, mo, d, hh, mi, ss⟩
  obtain ⟨hdl, hdw⟩ := dayName_facts _ hw
  obtain ⟨a, b, c, habc⟩ := List.length_eq_three.1 hdl
  obtain ⟨hml, hmw, hmidx⟩ := monthName_facts mo hmo
  obtain ⟨p, q, r, hpqr⟩ := List.length_eq_three.1 hml
  have hfmt : (formatTwitterTimestamp ⟨y, mo, d, hh, mi, ss⟩).data
      = [a, b, c, ' ', p, q, r, ' ',
        Nat.digitChar (d / 10), Nat.digitChar (d % 10), ' ',
        Nat.digitChar (hh / 10), Nat.digitChar (hh % 10), ':',
        Nat.digitChar (mi / 10), Nat.digitChar (mi % 10), ':',
        Nat.digitChar (ss / 10), Nat.digitChar (ss % 10), ' ', '+', '0', '0', '0', '0', ' ',
        Nat.digitChar (y / 1000 % 10), Nat.digitChar (y / 100 % 10),
        Nat.digitChar (y / 10 % 10), Nat.digitChar (y % 10)] := by
    show ((dayNames.getD (getUTCDay ⟨y, mo, d, hh, mi, ss⟩) "") ++ " "
      ++ (monthNames.getD mo "") ++ " " ++ pad2 d ++ " " ++ pad2 hh ++ ":" ++ pad2 mi
      ++ ":" ++ pad2 ss ++ " +0000 " ++ yearString y).data = _
    simp only [String.data_append, habc, hpqr]
    rfl
  have hkey : parseCanonicalChars (formatTwitterTimestamp ⟨y, mo, d, hh, mi, ss⟩).data
      = some (monthNames.getD mo "", d, hh, mi, ss, y) := by
    rw [hfmt]
    have hp := parseCanonical_format a b c p q r
      (hdw a (by rw [habc]; simp)) (hdw b (by rw [habc]; simp))
      (hdw c (by rw [habc]; simp))
      (hmw p (by rw [hpqr]; simp)) (hmw q (by rw [hpqr]; simp))
      (hmw r (by rw [hpqr]; simp))
      d hh mi ss y (by omega) (by omega) (by omega) (by omega) hy1 hy2
    rw [hp, ← hpqr]
  rw [parseTwitterDate, hkey]
  dsimp only
  rw [hmidx]
  rw [if_pos (show mo < monthNames.length by simpa [monthNames] using hmo)]

/-- C9 witness: the round trip at the concrete canonical timestamp
`Tue Nov 04 19:06:32 +0000 2025` (the example of
`src/lib/time.test.ts`). -/
theorem c9_timestamp_roundtrip_witness :
    formatTwitterTimestamp
        (parseTwitterDate ⟨1970, 0, 1, 0, 0, 0⟩ (formatTwitterTimestamp isoFixtureDate))
      = formatTwitterTimestamp isoFixtureDate
    ∧ formatTwitterTimestamp isoFixtureDate = "Tue Nov 04 19:06:32 +0000 2025" := by
  refine ⟨c9_timestamp_roundtrip ⟨1970, 0, 1, 0, 0, 0⟩ isoFixtureDate
    (by decide) (by decide) (by decide) (by decide) (by decide) (by decide)
    (by decide) (by decide) (by decide), by decide⟩
